import Mathlib

/-!
Shallow embedding of the `webglm` linear-algebra kernel
(`src/lib.rs`, `src/vec.rs`, `src/mat.rs`).

The source computes over IEEE-754 `f32` through 4-lane WASM SIMD
registers (`std::arch::wasm32::f32x4`).  The embedding keeps the exact
dataflow of the source — including the 4-lane register packing, the
zero padding of unused lanes, and the lane the source reads each field
from — but is generic in the scalar type `α`, so that algebraic claims
can be settled over exact arithmetic (`ℚ`, `ℝ`, `ℤ` stand for `f32`
computations in which every operation is exact) and the signed-zero
claim over a dedicated model of IEEE equality.
-/

namespace Webglm

/-- Model of the WASM SIMD type `v128` viewed as four `f32` lanes:
a record of the four lane values. -/
structure F32x4 (α : Type) where
  l0 : α
  l1 : α
  l2 : α
  l3 : α
deriving DecidableEq

/-- `std::arch::wasm32::f32x4(a, b, c, d)`: packs four scalars into a
4-lane register. -/
def f32x4 {α : Type} (a b c d : α) : F32x4 α := ⟨a, b, c, d⟩

/-- `std::arch::wasm32::f32x4_add`: lanewise addition. -/
def f32x4_add {α : Type} [Add α] (a b : F32x4 α) : F32x4 α :=
  ⟨a.l0 + b.l0, a.l1 + b.l1, a.l2 + b.l2, a.l3 + b.l3⟩

/-- `std::arch::wasm32::f32x4_sub`: lanewise subtraction. -/
def f32x4_sub {α : Type} [Sub α] (a b : F32x4 α) : F32x4 α :=
  ⟨a.l0 - b.l0, a.l1 - b.l1, a.l2 - b.l2, a.l3 - b.l3⟩

/-- `std::arch::wasm32::f32x4_mul`: lanewise multiplication. -/
def f32x4_mul {α : Type} [Mul α] (a b : F32x4 α) : F32x4 α :=
  ⟨a.l0 * b.l0, a.l1 * b.l1, a.l2 * b.l2, a.l3 * b.l3⟩

/-- `f32x4_extract_lane::<0>`. -/
def f32x4_extract_lane0 {α : Type} (v : F32x4 α) : α := v.l0

/-- `f32x4_extract_lane::<1>`. -/
def f32x4_extract_lane1 {α : Type} (v : F32x4 α) : α := v.l1

/-- `f32x4_extract_lane::<2>`. -/
def f32x4_extract_lane2 {α : Type} (v : F32x4 α) : α := v.l2

/-- `f32x4_extract_lane::<3>`. -/
def f32x4_extract_lane3 {α : Type} (v : F32x4 α) : α := v.l3

/-- `Vec2` (src/vec.rs lines 72-79): a two-component vector of `f32`. -/
@[ext]
structure Vec2 (α : Type) where
  x : α
  y : α
deriving DecidableEq

/-- `Vec3` (src/vec.rs lines 176-185): a three-component vector of `f32`. -/
@[ext]
structure Vec3 (α : Type) where
  x : α
  y : α
  z : α
deriving DecidableEq

/-- `Vec4` (src/vec.rs lines 310-321): a four-component vector of `f32`. -/
@[ext]
structure Vec4 (α : Type) where
  x : α
  y : α
  z : α
  w : α
deriving DecidableEq

/-- `impl_vec_zero!(Vec2, x, y)` `zero()`: the all-zero vector. -/
def Vec2.zero {α : Type} [Zero α] : Vec2 α := ⟨0, 0⟩

/-- `impl_vec_zero!(Vec3, x, y, z)` `zero()`. -/
def Vec3.zero {α : Type} [Zero α] : Vec3 α := ⟨0, 0, 0⟩

/-- `impl_vec_zero!(Vec4, x, y, z, w)` `zero()`. -/
def Vec4.zero {α : Type} [Zero α] : Vec4 α := ⟨0, 0, 0, 0⟩

/-- `impl_vec_zero!(Vec2, x, y)` `is_zero`: `self.x.is_zero() && self.y.is_zero()`.
The scalar test `isz` stands for `num::Zero::is_zero` on `f32`. -/
def Vec2.is_zero {α : Type} (isz : α → Bool) (v : Vec2 α) : Bool :=
  isz v.x && isz v.y

/-- `impl_vec_zero!(Vec3, x, y, z)` `is_zero`. -/
def Vec3.is_zero {α : Type} (isz : α → Bool) (v : Vec3 α) : Bool :=
  isz v.x && isz v.y && isz v.z

/-- `impl_vec_zero!(Vec4, x, y, z, w)` `is_zero`. -/
def Vec4.is_zero {α : Type} (isz : α → Bool) (v : Vec4 α) : Bool :=
  isz v.x && isz v.y && isz v.z && isz v.w

/-- `impl_vec_array!(Vec2, x, y)` `as_array`: the array `[self.x, self.y]`. -/
def Vec2.as_array {α : Type} (v : Vec2 α) : List α := [v.x, v.y]

/-- `impl_vec_array!(Vec3, x, y, z)` `as_array`. -/
def Vec3.as_array {α : Type} (v : Vec3 α) : List α := [v.x, v.y, v.z]

/-- `impl_vec_array!(Vec4, x, y, z, w)` `as_array`. -/
def Vec4.as_array {α : Type} (v : Vec4 α) : List α := [v.x, v.y, v.z, v.w]

/-- `impl Dot for Vec2` (src/vec.rs lines 133-144): packs both operands
into 4-lane registers with lanes 2, 3 padded with `0.0`, multiplies
lanewise, and sums lanes 0 and 1. -/
def Vec2.dot_mul {α : Type} [Zero α] [Add α] [Mul α] (a rhs : Vec2 α) : α :=
  let s := f32x4 a.x a.y 0 0
  let r := f32x4 rhs.x rhs.y 0 0
  let res := f32x4_mul s r
  f32x4_extract_lane0 res + f32x4_extract_lane1 res

/-- `impl Dot for Vec3` (src/vec.rs lines 242-254): lane 3 padded with
`0.0`; sums lanes 0, 1 and 2. -/
def Vec3.dot_mul {α : Type} [Zero α] [Add α] [Mul α] (a rhs : Vec3 α) : α :=
  let s := f32x4 a.x a.y a.z 0
  let r := f32x4 rhs.x rhs.y rhs.z 0
  let res := f32x4_mul s r
  f32x4_extract_lane0 res + f32x4_extract_lane1 res + f32x4_extract_lane2 res

/-- `impl Dot for Vec4` (src/vec.rs lines 381-394): all four lanes used. -/
def Vec4.dot_mul {α : Type} [Add α] [Mul α] (a rhs : Vec4 α) : α :=
  let s := f32x4 a.x a.y a.z a.w
  let r := f32x4 rhs.x rhs.y rhs.z rhs.w
  let res := f32x4_mul s r
  f32x4_extract_lane0 res + f32x4_extract_lane1 res +
    f32x4_extract_lane2 res + f32x4_extract_lane3 res

/-- `impl std::ops::Add for Vec2` (src/vec.rs lines 146-159). -/
def Vec2.add {α : Type} [Zero α] [Add α] (a rhs : Vec2 α) : Vec2 α :=
  let s := f32x4 a.x a.y 0 0
  let r := f32x4 rhs.x rhs.y 0 0
  let res := f32x4_add s r
  ⟨f32x4_extract_lane0 res, f32x4_extract_lane1 res⟩

/-- `impl std::ops::Sub for Vec2` (src/vec.rs lines 161-174). -/
def Vec2.sub {α : Type} [Zero α] [Sub α] (a rhs : Vec2 α) : Vec2 α :=
  let s := f32x4 a.x a.y 0 0
  let r := f32x4 rhs.x rhs.y 0 0
  let res := f32x4_sub s r
  ⟨f32x4_extract_lane0 res, f32x4_extract_lane1 res⟩

/-- `impl std::ops::Add for Vec3` (src/vec.rs lines 256-270). -/
def Vec3.add {α : Type} [Zero α] [Add α] (a rhs : Vec3 α) : Vec3 α :=
  let s := f32x4 a.x a.y a.z 0
  let r := f32x4 rhs.x rhs.y rhs.z 0
  let res := f32x4_add s r
  ⟨f32x4_extract_lane0 res, f32x4_extract_lane1 res, f32x4_extract_lane2 res⟩

/-- `impl std::ops::Sub for Vec3` (src/vec.rs lines 272-286). -/
def Vec3.sub {α : Type} [Zero α] [Sub α] (a rhs : Vec3 α) : Vec3 α :=
  let s := f32x4 a.x a.y a.z 0
  let r := f32x4 rhs.x rhs.y rhs.z 0
  let res := f32x4_sub s r
  ⟨f32x4_extract_lane0 res, f32x4_extract_lane1 res, f32x4_extract_lane2 res⟩

/-- `impl std::ops::Add for Vec4` (src/vec.rs lines 396-411).
NOTE: the source builds the right-hand register's lane 3 from `self.w`
(the LEFT operand), not `rhs.w`; the embedding reproduces this. -/
def Vec4.add {α : Type} [Add α] (a rhs : Vec4 α) : Vec4 α :=
  let s := f32x4 a.x a.y a.z a.w
  let r := f32x4 rhs.x rhs.y rhs.z a.w
  let res := f32x4_add s r
  ⟨f32x4_extract_lane0 res, f32x4_extract_lane1 res,
    f32x4_extract_lane2 res, f32x4_extract_lane3 res⟩

/-- `impl std::ops::Sub for Vec4` (src/vec.rs lines 413-428).
Same lane-3 anomaly as `Vec4.add`: the right-hand register's lane 3 is
`self.w`, not `rhs.w`. -/
def Vec4.sub {α : Type} [Sub α] (a rhs : Vec4 α) : Vec4 α :=
  let s := f32x4 a.x a.y a.z a.w
  let r := f32x4 rhs.x rhs.y rhs.z a.w
  let res := f32x4_sub s r
  ⟨f32x4_extract_lane0 res, f32x4_extract_lane1 res,
    f32x4_extract_lane2 res, f32x4_extract_lane3 res⟩

/-- `impl_vec_mag!(Vec2, x, y)` `mag`: `self.dot_mul(*self).sqrt()`.
The parameter `sqrt` stands for `f32::sqrt`. -/
def Vec2.mag {α : Type} [Zero α] [Add α] [Mul α] (sqrt : α → α) (v : Vec2 α) : α :=
  sqrt (v.dot_mul v)

/-- `impl_vec_mag!(Vec3, x, y, z)` `mag`. -/
def Vec3.mag {α : Type} [Zero α] [Add α] [Mul α] (sqrt : α → α) (v : Vec3 α) : α :=
  sqrt (v.dot_mul v)

/-- `impl_vec_mag!(Vec4, x, y, z, w)` `mag`. -/
def Vec4.mag {α : Type} [Add α] [Mul α] (sqrt : α → α) (v : Vec4 α) : α :=
  sqrt (v.dot_mul v)

/-- `Mat4` (src/mat.rs lines 10-17): a 4x4 matrix in column-major
order, stored as four `Vec4` columns. -/
@[ext]
structure Mat4 (α : Type) where
  c0 : Vec4 α
  c1 : Vec4 α
  c2 : Vec4 α
  c3 : Vec4 α
deriving DecidableEq

/-- `impl Transpose for Mat4` (src/mat.rs lines 19-28). -/
def Mat4.transpose {α : Type} (m : Mat4 α) : Mat4 α :=
  ⟨⟨m.c0.x, m.c1.x, m.c2.x, m.c3.x⟩,
   ⟨m.c0.y, m.c1.y, m.c2.y, m.c3.y⟩,
   ⟨m.c0.z, m.c1.z, m.c2.z, m.c3.z⟩,
   ⟨m.c0.w, m.c1.w, m.c2.w, m.c3.w⟩⟩

/-- `impl std::ops::Index<usize> for Mat4` (src/mat.rs lines 30-42):
returns column `i` for `i` in 0..=3 and panics (modelled as `none`)
for any other index. -/
def Mat4.index {α : Type} (m : Mat4 α) (i : Nat) : Option (Vec4 α) :=
  match i with
  | 0 => some m.c0
  | 1 => some m.c1
  | 2 => some m.c2
  | 3 => some m.c3
  | _ => none

/-- Total column accessor used to spell out what `Mat4.index` returns
inside the statically in-range loop of `Mat4.mul`. -/
def Mat4.col {α : Type} (m : Mat4 α) (i : Fin 4) : Vec4 α :=
  match i with
  | 0 => m.c0
  | 1 => m.c1
  | 2 => m.c2
  | 3 => m.c3

/-- Component accessor for `Vec4`: component `i` of the column vector
(index 0 is `x`, ..., index 3 is `w`). -/
def Vec4.comp {α : Type} (v : Vec4 α) (i : Fin 4) : α :=
  match i with
  | 0 => v.x
  | 1 => v.y
  | 2 => v.z
  | 3 => v.w

/-- The scalar entry of a column-major `Mat4` at row `r`, column `c`:
component `r` of column `c`. -/
def Mat4.entry {α : Type} (m : Mat4 α) (r c : Fin 4) : α :=
  (m.col c).comp r

/-- `impl std::ops::Mul for Mat4` (src/mat.rs lines 44-65): transposes
the right operand, then output column `i` has component `j` equal to
`self[i].dot_mul(rhs[j])`, with the 0..4 loops unrolled (both loops
stay inside the 0..=3 index range, so each `self[i]`, `rhs[j]` is the
corresponding column). -/
def Mat4.mul {α : Type} [Add α] [Mul α] (a b : Mat4 α) : Mat4 α :=
  let rhs := b.transpose
  ⟨⟨a.c0.dot_mul rhs.c0, a.c0.dot_mul rhs.c1, a.c0.dot_mul rhs.c2, a.c0.dot_mul rhs.c3⟩,
   ⟨a.c1.dot_mul rhs.c0, a.c1.dot_mul rhs.c1, a.c1.dot_mul rhs.c2, a.c1.dot_mul rhs.c3⟩,
   ⟨a.c2.dot_mul rhs.c0, a.c2.dot_mul rhs.c1, a.c2.dot_mul rhs.c2, a.c2.dot_mul rhs.c3⟩,
   ⟨a.c3.dot_mul rhs.c0, a.c3.dot_mul rhs.c1, a.c3.dot_mul rhs.c2, a.c3.dot_mul rhs.c3⟩⟩

/-- `impl num::One for Mat4` (src/mat.rs lines 80-89): the 4x4 identity. -/
def Mat4.one {α : Type} [Zero α] [One α] : Mat4 α :=
  ⟨⟨1, 0, 0, 0⟩, ⟨0, 1, 0, 0⟩, ⟨0, 0, 1, 0⟩, ⟨0, 0, 0, 1⟩⟩

/-- `translate` (src/mat.rs lines 92-99): composes `mat` with a
translation by `vec`; the result's columns are built from `mat`'s rows
with the translation components added into the `w` slot of columns
0, 1, 2. -/
def translate {α : Type} [Add α] (mat : Mat4 α) (vec : Vec3 α) : Mat4 α :=
  ⟨⟨mat.c0.x, mat.c1.x, mat.c2.x, mat.c3.x + vec.x⟩,
   ⟨mat.c0.y, mat.c1.y, mat.c2.y, mat.c3.y + vec.y⟩,
   ⟨mat.c0.z, mat.c1.z, mat.c2.z, mat.c3.z + vec.z⟩,
   ⟨mat.c0.w, mat.c1.w, mat.c2.w, mat.c3.w⟩⟩

/-- `impl crate::AsArray for Mat4` (src/mat.rs lines 101-115): chains
the four columns' arrays in order `c0, c1, c2, c3`. -/
def Mat4.as_array {α : Type} (m : Mat4 α) : List α :=
  m.c0.as_array ++ m.c1.as_array ++ m.c2.as_array ++ m.c3.as_array

/-- Minimal model of the IEEE-754 binary32 values relevant to
`num::Zero::is_zero` for `f32` (which is `*self == 0.0`): a finite
float is its exact numeric value together with its sign bit, so that
negative zero (`val = 0`, `sgnNeg = true`) is a value distinct from
positive zero yet equal to it under IEEE comparison. -/
structure F32 where
  val : ℚ
  sgnNeg : Bool
deriving DecidableEq

/-- IEEE-754 equality `==` on finite floats: compares numeric values,
so `-0.0 == 0.0` holds. -/
def F32.ieee_eq (a b : F32) : Bool := decide (a.val = b.val)

/-- The `f32` literal `0.0`. -/
def F32.fzero : F32 := ⟨0, false⟩

/-- The `f32` value `-0.0`. -/
def F32.neg_zero : F32 := ⟨0, true⟩

/-- `num::Zero::is_zero` for `f32`: `*self == 0.0` under IEEE equality. -/
def F32.is_zero (a : F32) : Bool := F32.ieee_eq a F32.fzero

end Webglm

namespace Webglm

/-- Concrete matrix with a single nonzero entry at row 0, column 1
(stored as `c1.x = 1`), used to separate `A * B` from the standard
product under the column-major reading. -/
def cexA : Mat4 ℤ := ⟨⟨0, 0, 0, 0⟩, ⟨1, 0, 0, 0⟩, ⟨0, 0, 0, 0⟩, ⟨0, 0, 0, 0⟩⟩

/-- Concrete matrix with a single nonzero entry at row 1, column 0
(stored as `c0.y = 1`). -/
def cexB : Mat4 ℤ := ⟨⟨0, 1, 0, 0⟩, ⟨0, 0, 0, 0⟩, ⟨0, 0, 0, 0⟩, ⟨0, 0, 0, 0⟩⟩

/-- C1 counterexample: at `A = cexA`, `B = cexB`, the entry of `A * B`
at row 0, column 0 is not the standard-product entry
`Σ_k A[0][k] * B[k][0]` (the code yields 0 where the standard product
has 1). -/
theorem mat4_mul_not_standard :
    ¬ (Mat4.entry (Mat4.mul cexA cexB) 0 0 =
        Mat4.entry cexA 0 0 * Mat4.entry cexB 0 0 +
        Mat4.entry cexA 0 1 * Mat4.entry cexB 1 0 +
        Mat4.entry cexA 0 2 * Mat4.entry cexB 2 0 +
        Mat4.entry cexA 0 3 * Mat4.entry cexB 3 0) := by
  decide

/-- C1 (amended): for all `A`, `B` and all row `r`, column `c`, the
entry of `A * B` at `(r, c)` is `Σ_k B[r][k] * A[k][c]` — the standard
matrix product of the OPERANDS EXCHANGED (mathematically `B × A`) under
the column-major, column-vector convention. -/
theorem mat4_mul_swapped_product (a b : Mat4 ℚ) (r c : Fin 4) :
    Mat4.entry (Mat4.mul a b) r c =
      Mat4.entry b r 0 * Mat4.entry a 0 c + Mat4.entry b r 1 * Mat4.entry a 1 c +
      Mat4.entry b r 2 * Mat4.entry a 2 c + Mat4.entry b r 3 * Mat4.entry a 3 c := by
  fin_cases r <;> fin_cases c <;>
    simp [Mat4.mul, Mat4.entry, Mat4.col, Vec4.comp, Mat4.transpose, Vec4.dot_mul,
      f32x4, f32x4_mul, f32x4_extract_lane0, f32x4_extract_lane1,
      f32x4_extract_lane2, f32x4_extract_lane3] <;> ring

/-- C2: evaluation of the code at the failing input: for
`a = (1, 2, 3, 4)` and `b = (10, 20, 30, 40)`, `a + b` has `w = 8`
(that is `a.w + a.w`, not `a.w + b.w = 44`) and `a - b` has `w = 0`
(that is `a.w - a.w`, not `a.w - b.w = -36`), while lanes `x, y, z`
are componentwise. -/
theorem vec4_add_sub_w_anomaly :
    (Vec4.add (⟨1, 2, 3, 4⟩ : Vec4 ℤ) ⟨10, 20, 30, 40⟩ = ⟨11, 22, 33, 8⟩) ∧
    (Vec4.sub (⟨1, 2, 3, 4⟩ : Vec4 ℤ) ⟨10, 20, 30, 40⟩ = ⟨-9, -18, -27, 0⟩) := by
  decide

/-- C3: multiplying by the identity matrix `one` on either side
returns the matrix unchanged: `M * one = M` and `one * M = M`. -/
theorem mat4_mul_one_identity (m : Mat4 ℚ) :
    Mat4.mul m Mat4.one = m ∧ Mat4.mul Mat4.one m = m := by
  obtain ⟨⟨a0, a1, a2, a3⟩, ⟨b0, b1, b2, b3⟩, ⟨c0, c1, c2, c3⟩, ⟨d0, d1, d2, d3⟩⟩ := m
  constructor <;>
    simp [Mat4.mul, Mat4.one, Mat4.transpose, Vec4.dot_mul, f32x4, f32x4_mul,
      f32x4_extract_lane0, f32x4_extract_lane1, f32x4_extract_lane2,
      f32x4_extract_lane3, Mat4.mk.injEq, Vec4.mk.injEq]

/-- C4: transpose is an involution: `transpose (transpose M) = M` for
every matrix over every scalar type. -/
theorem mat4_transpose_involution (α : Type) (m : Mat4 α) :
    m.transpose.transpose = m := rfl

/-- C5: `translate mat v` builds column `i` (for `i` in 0, 1, 2) as
row `i` of `mat` with `v`'s component `i` added into the `w` slot, and
column 3 as `(mat.c0.w, mat.c1.w, mat.c2.w, mat.c3.w)` with `w` taken
unchanged from `mat`. -/
theorem translate_columns (m : Mat4 ℚ) (v : Vec3 ℚ) :
    (translate m v).c0 = ⟨m.c0.x, m.c1.x, m.c2.x, m.c3.x + v.x⟩ ∧
    (translate m v).c1 = ⟨m.c0.y, m.c1.y, m.c2.y, m.c3.y + v.y⟩ ∧
    (translate m v).c2 = ⟨m.c0.z, m.c1.z, m.c2.z, m.c3.z + v.z⟩ ∧
    (translate m v).c3 = ⟨m.c0.w, m.c1.w, m.c2.w, m.c3.w⟩ :=
  ⟨rfl, rfl, rfl, rfl⟩

/-- C6: each `dot_mul` is the sum of componentwise products over
exactly the type's arity: two terms for `Vec2`, three for `Vec3`, four
for `Vec4` (the zero-padded SIMD lanes are never read back). -/
theorem dot_mul_arity (a b : Vec2 ℚ) (c d : Vec3 ℚ) (e f : Vec4 ℚ) :
    Vec2.dot_mul a b = a.x * b.x + a.y * b.y ∧
    Vec3.dot_mul c d = c.x * d.x + c.y * d.y + c.z * d.z ∧
    Vec4.dot_mul e f = e.x * f.x + e.y * f.y + e.z * f.z + e.w * f.w :=
  ⟨rfl, rfl, rfl⟩

/-- C7: `as_array` lists components in declared field order with
length equal to the arity, and `Mat4.as_array` flattens columns
`c0, c1, c2, c3` in order, 16 scalars total. -/
theorem as_array_field_order (a : Vec2 ℚ) (b : Vec3 ℚ) (c : Vec4 ℚ) (m : Mat4 ℚ) :
    (Vec2.as_array a = [a.x, a.y] ∧ (Vec2.as_array a).length = 2) ∧
    (Vec3.as_array b = [b.x, b.y, b.z] ∧ (Vec3.as_array b).length = 3) ∧
    (Vec4.as_array c = [c.x, c.y, c.z, c.w] ∧ (Vec4.as_array c).length = 4) ∧
    (Mat4.as_array m =
      [m.c0.x, m.c0.y, m.c0.z, m.c0.w,
       m.c1.x, m.c1.y, m.c1.z, m.c1.w,
       m.c2.x, m.c2.y, m.c2.z, m.c2.w,
       m.c3.x, m.c3.y, m.c3.z, m.c3.w] ∧ (Mat4.as_array m).length = 16) :=
  ⟨⟨rfl, rfl⟩, ⟨rfl, rfl⟩, ⟨rfl, rfl⟩, ⟨rfl, rfl⟩⟩

/-- C8: `M[i]` returns column `i` of `M` for `i` in 0..=3, and every
index of the form `i + 4` (that is, every index outside 0..=3) is a
fatal fault, modelled as `none` — never a returned column. -/
theorem mat4_index_columns_or_fatal (m : Mat4 ℚ) :
    Mat4.index m 0 = some m.c0 ∧ Mat4.index m 1 = some m.c1 ∧
    Mat4.index m 2 = some m.c2 ∧ Mat4.index m 3 = some m.c3 ∧
    ∀ i : Nat, Mat4.index m (i + 4) = none :=
  ⟨rfl, rfl, rfl, rfl, fun _ => rfl⟩

/-- C9: magnitude is `sqrt (dot_mul v v)` for each arity, and the
magnitude of the all-zero vector is exactly 0. -/
theorem mag_sqrt_dot (u : Vec2 ℝ) (v : Vec3 ℝ) (w : Vec4 ℝ) :
    Vec2.mag Real.sqrt u = Real.sqrt (Vec2.dot_mul u u) ∧
    Vec3.mag Real.sqrt v = Real.sqrt (Vec3.dot_mul v v) ∧
    Vec4.mag Real.sqrt w = Real.sqrt (Vec4.dot_mul w w) ∧
    Vec2.mag Real.sqrt Vec2.zero = 0 ∧
    Vec3.mag Real.sqrt Vec3.zero = 0 ∧
    Vec4.mag Real.sqrt Vec4.zero = 0 := by
  refine ⟨rfl, rfl, rfl, ?_, ?_, ?_⟩ <;>
    simp [Vec2.mag, Vec3.mag, Vec4.mag, Vec2.zero, Vec3.zero, Vec4.zero,
      Vec2.dot_mul, Vec3.dot_mul, Vec4.dot_mul, f32x4, f32x4_mul,
      f32x4_extract_lane0, f32x4_extract_lane1, f32x4_extract_lane2,
      f32x4_extract_lane3, Real.sqrt_zero]

/-- C10: `is_zero` is true exactly when every component compares equal
to `0.0` under IEEE-754 equality, and in particular the vector
`(-0.0, 0.0)` — whose first component is negative zero, a value
distinct from positive zero — is reported as zero. -/
theorem is_zero_ieee_signed_zero (u : Vec2 F32) (v : Vec3 F32) (w : Vec4 F32) :
    (Vec2.is_zero F32.is_zero u =
      (F32.ieee_eq u.x F32.fzero && F32.ieee_eq u.y F32.fzero)) ∧
    (Vec3.is_zero F32.is_zero v =
      (F32.ieee_eq v.x F32.fzero && F32.ieee_eq v.y F32.fzero &&
        F32.ieee_eq v.z F32.fzero)) ∧
    (Vec4.is_zero F32.is_zero w =
      (F32.ieee_eq w.x F32.fzero && F32.ieee_eq w.y F32.fzero &&
        F32.ieee_eq w.z F32.fzero && F32.ieee_eq w.w F32.fzero)) ∧
    Vec2.is_zero F32.is_zero ⟨F32.neg_zero, F32.fzero⟩ = true ∧
    decide (F32.neg_zero = F32.fzero) = false :=
  ⟨rfl, rfl, rfl, by decide, by decide⟩

end Webglm
